import Mathlib

/-!
Verification of the model and settings layer of the CPLUS QGIS plugin
(`src/cplus_plugin/models/base.py`, `src/cplus_plugin/conf.py`).

The Python code delegates filesystem existence checks (`os.path.exists`)
and GIS layer validity (`QgsRasterLayer(...).isValid()`,
`QgsVectorLayer(...).isValid()`) to the host.  Those externals are
modelled by an explicit environment `Env` of boolean oracles, passed to
every operation that consults them.  Python `UUID` values are modelled by
their canonical string form, which is also what the code compares after
`str(...)` conversions.  Fallible Python code (raising constructors,
uncaught exceptions) is modelled with `Except`.
-/

/-- External world: filesystem and QGIS layer validity oracles.
`pathExists p` models `os.path.exists(p)`; `rasterValid p` models
`QgsRasterLayer(p, ...).isValid()`; `vectorValid p` models
`QgsVectorLayer(p, ...).isValid()`. -/
structure Env where
  pathExists : String → Bool
  rasterValid : String → Bool
  vectorValid : String → Bool

/-- `LayerType` enum (models/base.py:75-80): RASTER = 0, VECTOR = 1,
UNDEFINED = -1. -/
inductive LayerType where
  | RASTER
  | VECTOR
  | UNDEFINED
deriving DecidableEq, Repr

/-- A constructed QGIS map layer handle: `QgsRasterLayer(path, name)` or
`QgsVectorLayer(path, name)`. -/
inductive MapLayer where
  | raster (path : String) (layerName : String)
  | vector (path : String) (layerName : String)
deriving DecidableEq, Repr

/-- `layer.isValid()` on a constructed map layer, answered by the host
environment. -/
def MapLayer.isValid (env : Env) : MapLayer → Bool
  | .raster p _ => env.rasterValid p
  | .vector p _ => env.vectorValid p

/-- `SpatialExtent` dataclass (models/base.py:16-22).  Its only field is
`bbox`. -/
structure SpatialExtent where
  bbox : List Float

/-- `BaseModelComponent` dataclass (models/base.py:40-67):
uuid, name, description. -/
structure BaseModelComponent where
  uuid : String
  name : String
  description : String
deriving DecidableEq, Repr

/-- `BaseModelComponent.__eq__` (models/base.py:48-67): equality over the
uuid, name and description attributes only. -/
def BaseModelComponent.eq (a b : BaseModelComponent) : Bool :=
  if a.uuid != b.uuid then false
  else if a.name != b.name then false
  else if a.description != b.description then false
  else true

/-- `LayerModelComponent` dataclass (models/base.py:111-182): adds
path, layer_type, user_defined. -/
structure LayerModelComponent extends BaseModelComponent where
  path : String
  layer_type : LayerType
  user_defined : Bool
deriving DecidableEq, Repr

/-- `LayerModelComponent.to_map_layer` (models/base.py:142-163): returns
None when `os.path.exists(self.path)` is false; otherwise constructs a
raster or vector layer according to the CURRENT `layer_type`, and returns
None when `layer_type` is UNDEFINED (the local `layer` stays None). -/
def LayerModelComponent.to_map_layer (env : Env) (c : LayerModelComponent) :
    Option MapLayer :=
  if env.pathExists c.path = false then none
  else
    match c.layer_type with
    | LayerType.RASTER => some (MapLayer.raster c.path c.name)
    | LayerType.VECTOR => some (MapLayer.vector c.path c.name)
    | LayerType.UNDEFINED => none

/-- `LayerModelComponent.update_layer_type` (models/base.py:125-140):
probe `to_map_layer()`; return unchanged when it is None or invalid; set
`layer_type` from the class of the constructed layer otherwise. -/
def LayerModelComponent.update_layer_type (env : Env)
    (c : LayerModelComponent) : LayerModelComponent :=
  match LayerModelComponent.to_map_layer env c with
  | none => c
  | some layer =>
    if layer.isValid env = false then c
    else
      match layer with
      | MapLayer.raster _ _ => { c with layer_type := LayerType.RASTER }
      | MapLayer.vector _ _ => { c with layer_type := LayerType.VECTOR }

/-- `LayerModelComponent.__post_init__` (models/base.py:121-123): the
dataclass constructor runs `update_layer_type` on the field values. -/
def mkLayerModelComponent (env : Env) (c : LayerModelComponent) :
    LayerModelComponent :=
  LayerModelComponent.update_layer_type env c

/-- `LayerModelComponent.is_valid` (models/base.py:165-176): False when
`to_map_layer()` is None, else `layer.isValid()`. -/
def LayerModelComponent.is_valid (env : Env) (c : LayerModelComponent) :
    Bool :=
  match LayerModelComponent.to_map_layer env c with
  | none => false
  | some layer => layer.isValid env

/-- `LayerModelComponent.__eq__` (models/base.py:178-182): delegates to
the `BaseModelComponent` equality test. -/
def LayerModelComponent.eq (a b : LayerModelComponent) : Bool :=
  BaseModelComponent.eq a.toBaseModelComponent b.toBaseModelComponent

/-- `NcsPathway` dataclass (models/base.py:199-293): adds carbon_paths
and carbon_coefficient.  The coefficient is stored but never read by any
operation verified here. -/
structure NcsPathway extends LayerModelComponent where
  carbon_paths : List String
  carbon_coefficient : Float

/-- `NcsPathway.__eq__` (models/base.py:206-231): base equality, then
path, layer_type and user_defined; carbon_paths and carbon_coefficient
are not compared. -/
def NcsPathway.eq (a b : NcsPathway) : Bool :=
  if LayerModelComponent.eq a.toLayerModelComponent b.toLayerModelComponent
      = false then false
  else if a.path != b.path then false
  else if a.layer_type != b.layer_type then false
  else if a.user_defined != b.user_defined then false
  else true

/-- `NcsPathway.is_carbon_valid` (models/base.py:267-281): every carbon
path must yield a valid `QgsRasterLayer`; vacuously true when there are
no carbon paths. -/
def NcsPathway.is_carbon_valid (env : Env) (p : NcsPathway) : Bool :=
  p.carbon_paths.all env.rasterValid

/-- `NcsPathway.is_valid` (models/base.py:283-293): the inherited layer
check, then the carbon layers check. -/
def NcsPathway.is_valid (env : Env) (p : NcsPathway) : Bool :=
  if LayerModelComponent.is_valid env p.toLayerModelComponent = false then
    false
  else if NcsPathway.is_carbon_valid env p = false then false
  else true

/-- `NcsPathway.__post_init__` is inherited from `LayerModelComponent`:
construction runs `update_layer_type`. -/
def mkNcsPathway (env : Env) (p : NcsPathway) : NcsPathway :=
  { p with
    toLayerModelComponent :=
      LayerModelComponent.update_layer_type env p.toLayerModelComponent }

/-- `ImplementationModel` dataclass (models/base.py:296-442): adds
pathways and priority_layers.  Each priority layer is a dict of which the
code only ever reads the value under the key `path`
(`layer.get("path")` in `pw_layers`); the dict is therefore represented
here by that path value. -/
structure ImplementationModel extends LayerModelComponent where
  pathways : List NcsPathway
  priority_layers : List String

/-- Inherited `to_map_layer` on the implementation model. -/
def ImplementationModel.to_map_layer (env : Env) (m : ImplementationModel) :
    Option MapLayer :=
  LayerModelComponent.to_map_layer env m.toLayerModelComponent

/-- `ImplementationModel.__post_init__` (models/base.py:308-321): runs
the inherited `update_layer_type`, raises ValueError when the pathway
uuids repeat (`len(set(uuids)) != len(uuids)`), then resets `pathways` to
the empty list when `to_map_layer()` is not None and pathways is
non-empty. -/
def mkImplementationModel (env : Env) (m : ImplementationModel) :
    Except String ImplementationModel :=
  let m2 : ImplementationModel :=
    { m with
      toLayerModelComponent :=
        LayerModelComponent.update_layer_type env m.toLayerModelComponent }
  if (m2.pathways.map (fun p => p.uuid)).Nodup then
    if (ImplementationModel.to_map_layer env m2).isSome
        ∧ 0 < m2.pathways.length then
      Except.ok { m2 with pathways := [] }
    else
      Except.ok m2
  else
    Except.error
      ("Duplicate pathways found in implementation model " ++ m2.name ++ ".")

/-- `ImplementationModel.pathway_by_uuid` (models/base.py:383-398): first
pathway whose uuid string matches, else None. -/
def ImplementationModel.pathway_by_uuid (m : ImplementationModel)
    (pathway_uuid : String) : Option NcsPathway :=
  match m.pathways.filter (fun p => p.uuid == pathway_uuid) with
  | [] => none
  | p :: _ => some p

/-- `ImplementationModel.contains_pathway` (models/base.py:323-336). -/
def ImplementationModel.contains_pathway (m : ImplementationModel)
    (pathway_uuid : String) : Bool :=
  (ImplementationModel.pathway_by_uuid m pathway_uuid).isSome

/-- `ImplementationModel.add_ncs_pathway` (models/base.py:338-357):
reject when `ncs.is_valid()` is false; reject when a pathway with the
same uuid is present; otherwise append and report success.  The returned
pair is (reported result, updated model). -/
def ImplementationModel.add_ncs_pathway (env : Env)
    (m : ImplementationModel) (ncs : NcsPathway) :
    Bool × ImplementationModel :=
  if NcsPathway.is_valid env ncs = false then (false, m)
  else if ImplementationModel.contains_pathway m ncs.uuid = true then
    (false, m)
  else (true, { m with pathways := m.pathways ++ [ncs] })

/-- `ImplementationModel.clear_layer` (models/base.py:359-361). -/
def ImplementationModel.clear_layer (m : ImplementationModel) :
    ImplementationModel :=
  { m with path := "" }

/-- `ImplementationModel.is_pwls_valid` (models/base.py:410-424): every
priority weighting layer path must yield a valid `QgsRasterLayer`;
vacuously true when there are none. -/
def ImplementationModel.is_pwls_valid (env : Env)
    (m : ImplementationModel) : Bool :=
  m.priority_layers.all env.rasterValid

/-- `ImplementationModel.is_valid` (models/base.py:426-442): when
`to_map_layer()` is not None, defer to the inherited layer validity
check; otherwise require a non-empty pathways list and valid priority
weighting layers. -/
def ImplementationModel.is_valid (env : Env) (m : ImplementationModel) :
    Bool :=
  match ImplementationModel.to_map_layer env m with
  | some _ => LayerModelComponent.is_valid env m.toLayerModelComponent
  | none =>
    if m.pathways.length = 0 then false
    else if ImplementationModel.is_pwls_valid env m = false then false
    else true

/-- `ScenarioState` enum (models/base.py:445-452). -/
inductive ScenarioState where
  | IDLE
  | RUNNING
  | STOPPED
  | FINISHED
  | TERMINATED
deriving DecidableEq, Repr

/-- `Scenario` dataclass (models/base.py:455-464): extent, models and
priority_layer_groups have NO dataclass defaults; state defaults to
IDLE. -/
structure Scenario extends BaseModelComponent where
  extent : SpatialExtent
  models : List ImplementationModel
  priority_layer_groups : List String
  state : ScenarioState

/-- `ScenarioResult` dataclass (models/base.py:467-474).  Timestamps are
modelled as naturals. -/
structure ScenarioResult where
  scenario : Scenario
  created_date : Nat
  analysis_output : Option String
  output_layer_name : String

/-- The default for `created_date` is the expression
`datetime.datetime.now()` written as a plain dataclass default value
(models/base.py:472).  Python evaluates such a default expression ONCE,
when the class body executes at module load; it is not re-evaluated per
construction.  The default is therefore a function of the module load
time only. -/
def scenarioResultDefaultCreatedDate (moduleLoadTime : Nat) : Nat :=
  moduleLoadTime

/-- Constructing a `ScenarioResult`.  `createdDate` is the optional
explicit argument; `nowAtConstruction` is what the wall clock reads when
the constructor runs — the dataclass default never consults it. -/
def mkScenarioResult (moduleLoadTime : Nat) (s : Scenario)
    (createdDate : Option Nat) (nowAtConstruction : Nat) : ScenarioResult :=
  { scenario := s
    created_date :=
      createdDate.getD (scenarioResultDefaultCreatedDate moduleLoadTime)
    analysis_output := none
    output_layer_name := "" }

/-!
Settings layer, `src/cplus_plugin/conf.py`.

The committed conf.py contains unresolved merge-conflict markers
(lines 10-13, 130-134, 296, 484, 551), so as a Python module it cannot
even be imported; following the line numbers the claims cite, each
function is embedded as its text stands, with both conflict branches
present.  The store is the host `QgsSettings` hierarchy; the two groups
this file touches (`cplus_plugin/scenarios/...` and
`cplus_plugin/ncs_pathways`) are disjoint and are modelled separately.
-/

/-- Python exception kinds that the conf.py control flow distinguishes:
`initialize_default_settings` catches only `KeyError`, so a
`JSONDecodeError` escaping `json.loads` propagates. -/
inductive PyErr where
  | keyError (k : String)
  | jsonDecodeError (raw : String)
deriving DecidableEq, Repr

/-- A Python dict describing an NCS pathway record — a catalog entry of
`DEFAULT_NCS_PATHWAYS` or the object parsed from a stored blob.  A
`none` field models a missing key: subscripting it raises `KeyError`,
and `dict.get` returns `None`. -/
structure NcsDict where
  uuid : Option String
  name : Option String
  description : Option String
  path : Option String
  user_defined : Option Bool
deriving DecidableEq, Repr

/-- A string value stored under the NCS pathway settings root.
`save_ncs_pathway` stores `json.dumps` of a dict, so a well-formed blob
carries that dict; any other string fails `json.loads`. -/
inductive Blob where
  | json (d : NcsDict)
  | malformed (raw : String)
deriving DecidableEq, Repr

/-- True when the blob parses as JSON. -/
def Blob.wellFormed : Blob → Bool
  | Blob.json _ => true
  | Blob.malformed _ => false

/-- `json.loads` applied to a stored blob: the dict for a well-formed
blob, `JSONDecodeError` otherwise.  `get_ncs_pathway` (conf.py:512-531)
wraps it in no handler. -/
def json_loads : Blob → Except PyErr NcsDict
  | Blob.json d => Except.ok d
  | Blob.malformed raw => Except.error (PyErr.jsonDecodeError raw)

/-- The settings group `cplus_plugin/ncs_pathways`: a flat association
of uuid keys to stored blobs. -/
abbrev NcsStore := List (String × Blob)

/-- `settings.value(key, None)` inside the NCS group: first entry with
the matching key, else None. -/
def storeValue : NcsStore → String → Option Blob
  | [], _ => none
  | kv :: rest, k => if kv.1 = k then some kv.2 else storeValue rest k

/-- `settings.setValue(key, value)` inside the NCS group: the key now
maps to the value; other keys are untouched. -/
def storeSet (store : NcsStore) (k : String) (v : Blob) : NcsStore :=
  (k, v) :: store.filter (fun kv => !(kv.1 == k))

/-- Modelled from the spec: `create_ncs_pathway` is imported by conf.py
from `models.base` but is absent from the sources given (only this
caller is present).  Per spec §4.1, reading deserializes the stored
document into the entity, with an absent result when the record does not
describe one: the dict fields populate an `NcsPathway` constructed like
the dataclass (running `__post_init__`), absent when a required field is
missing. -/
def create_ncs_pathway (env : Env) (d : NcsDict) : Option NcsPathway :=
  match d.uuid, d.name, d.description, d.path with
  | some u, some n, some ds, some p =>
    some (mkNcsPathway env
      { uuid := u, name := n, description := ds, path := p
        layer_type := LayerType.UNDEFINED
        user_defined := d.user_defined.getD false
        carbon_paths := [], carbon_coefficient := 0.0 })
  | _, _, _, _ => none

/-- `SettingsManager.get_ncs_pathway` (conf.py:512-531): read the value
under the uuid key; None when absent; otherwise
`create_ncs_pathway(json.loads(blob))`, where a blob that is not JSON
raises out of the call. -/
def SettingsManager.get_ncs_pathway (env : Env) (store : NcsStore)
    (ncs_uuid : String) : Except PyErr (Option NcsPathway) :=
  match storeValue store ncs_uuid with
  | none => Except.ok none
  | some blob =>
    match json_loads blob with
    | Except.error e => Except.error e
    | Except.ok d => Except.ok (create_ncs_pathway env d)

/-- `SettingsManager.save_ncs_pathway` (conf.py:493-510) applied to a
dict (the bootstrap path): `json.dumps` the dict, then store it under
`ncs_pathway["uuid"]` — a missing uuid key raises `KeyError`. -/
def SettingsManager.save_ncs_pathway_dict (store : NcsStore)
    (d : NcsDict) : Except PyErr NcsStore :=
  match d.uuid with
  | none => Except.error (PyErr.keyError "uuid")
  | some u => Except.ok (storeSet store u (Blob.json d))

/-- The body of the try block in `initialize_default_settings`
(conf.py:561-574) for one catalog record: read `ncs_dict["uuid"]`
(KeyError when missing), look the pathway up, and when absent rewrite
`path` to `f"{base_dir}/{NCS_PATHWAY_BASE}/{file_name}"` with the
placeholder `base_dir = ""`, set `user_defined = False`, and save. -/
def seed_record (env : Env) (store : NcsStore) (d : NcsDict) :
    Except PyErr NcsStore :=
  match d.uuid with
  | none => Except.error (PyErr.keyError "uuid")
  | some ncs_uuid =>
    match SettingsManager.get_ncs_pathway env store ncs_uuid with
    | Except.error e => Except.error e
    | Except.ok (some _) => Except.ok store
    | Except.ok none =>
      match d.path with
      | none => Except.error (PyErr.keyError "path")
      | some file_name =>
        let absolute_path := "" ++ "/" ++ "ncs_pathways" ++ "/" ++ file_name
        SettingsManager.save_ncs_pathway_dict store
          { d with path := some absolute_path, user_defined := some false }

/-- `initialize_default_settings` (conf.py:557-577): iterate the catalog;
a `KeyError` from a record is logged and the loop continues; any other
exception — in particular a `JSONDecodeError` raised by
`get_ncs_pathway` — is uncaught and aborts the whole bootstrap. -/
def init_default_settings (env : Env) :
    List NcsDict → NcsStore → Except PyErr NcsStore
  | [], store => Except.ok store
  | d :: rest, store =>
    match seed_record env store d with
    | Except.ok s2 => init_default_settings env rest s2
    | Except.error (PyErr.keyError _) => init_default_settings env rest store
    | Except.error e => Except.error e

/-- `ScenarioSettings` (conf.py:57-99) extends the `Scenario` dataclass
and adds no fields. -/
structure ScenarioSettings extends Scenario

/-- One child group under `cplus_plugin/scenarios`: the keys
`save_scenario` would write. -/
structure ScenarioGroup where
  name : Option String
  description : Option String
  uuid_val : Option String
  bbox : Option (List Float)

/-- The settings group `cplus_plugin/scenarios`: child groups keyed by
uuid string. -/
abbrev ScenarioStore := List (String × ScenarioGroup)

/-- `ScenarioSettings.from_qgs_settings` (conf.py:61-80) evaluates
`cls(uuid=..., name=..., description=...)`.  `ScenarioSettings` inherits
the dataclass fields of `Scenario` (models/base.py:455-464), whose
`extent`, `models` and `priority_layer_groups` fields have no defaults,
so the constructor call raises `TypeError` before any instance is
produced. -/
def ScenarioSettings.from_qgs_settings (identifier : String)
    (g : ScenarioGroup) : Except String ScenarioSettings :=
  Except.error
    "TypeError: ScenarioSettings missing required fields extent, models, priority_layer_groups"

/-- `SettingsManager.save_scenario_extent` (conf.py:213-227) evaluates
`extent.spatial.bbox`.  The argument is the scenario `extent`, a
`SpatialExtent` (models/base.py:16-22) whose only field is `bbox`, so
the attribute lookup `spatial` raises `AttributeError`. -/
def SettingsManager.save_scenario_extent (key : String)
    (extent : SpatialExtent) : Except String (List Float) :=
  Except.error "AttributeError: SpatialExtent object has no attribute spatial"

/-- `SettingsManager.save_scenario` (conf.py:198-211): calls
`save_scenario_extent` first (line 206), then would write `name`,
`description` and `uuid` into the group.  The extent write happens
before any other write, so its exception leaves the store untouched. -/
def SettingsManager.save_scenario (store : ScenarioStore)
    (s : ScenarioSettings) : Except String ScenarioStore :=
  match SettingsManager.save_scenario_extent
      ("cplus_plugin/scenarios/" ++ s.uuid) s.extent with
  | Except.error e => Except.error e
  | Except.ok bbox =>
    Except.ok ((s.uuid,
      { name := some s.name
        description := some s.description
        uuid_val := some s.uuid
        bbox := some bbox }) :: store)

/-- The loop body of the second (surviving) `get_scenario` overload
(conf.py:246-268): for each child group build
`ScenarioSettings.from_qgs_settings` and compare `scenario.id` with the
requested id.  `from_qgs_settings` raises `TypeError`; were a scenario
ever produced, `scenario.id` would raise `AttributeError` since the
field is named `uuid`. -/
def get_scenario_loop : List (String × ScenarioGroup) → String →
    Except String (Option ScenarioSettings)
  | [], _ => Except.ok none
  | (u, g) :: _, _ =>
    match ScenarioSettings.from_qgs_settings u g with
    | Except.error e => Except.error e
    | Except.ok _ =>
      Except.error "AttributeError: ScenarioSettings object has no attribute id"

/-- `SettingsManager.get_scenario` (conf.py:246-268).  Python keeps the
later of the two same-named definitions, the linear scan by id. -/
def SettingsManager.get_scenario (store : ScenarioStore)
    (scenario_id : String) : Except String (Option ScenarioSettings) :=
  get_scenario_loop store scenario_id

/-!  Concrete fixtures used by the claim theorems and witnesses. -/

/-- Environment where no path exists and no layer is valid. -/
def envNone : Env :=
  { pathExists := fun _ => false
    rasterValid := fun _ => false
    vectorValid := fun _ => false }

/-- Environment where `model.tif` and `ncs.tif` exist and open as valid
raster layers. -/
def env1 : Env :=
  { pathExists := fun p => p == "model.tif" || p == "ncs.tif"
    rasterValid := fun p => p == "model.tif" || p == "ncs.tif"
    vectorValid := fun _ => false }

/-- A valid NCS pathway whose layer is the raster `ncs.tif`. -/
def ncs1 : NcsPathway :=
  { uuid := "1a", name := "Pathway One", description := "first"
    path := "ncs.tif", layer_type := LayerType.RASTER
    user_defined := false, carbon_paths := [], carbon_coefficient := 0.0 }

/-- An implementation model whose own layer `model.tif` resolves and is
valid, with no pathways. -/
def im1 : ImplementationModel :=
  { uuid := "2b", name := "Model One", description := "model"
    path := "model.tif", layer_type := LayerType.RASTER
    user_defined := false, pathways := [], priority_layers := [] }

/-- Two pathways sharing the uuid `dup-1`. -/
def ncsDupA : NcsPathway :=
  { uuid := "dup-1", name := "A", description := ""
    path := "", layer_type := LayerType.UNDEFINED
    user_defined := false, carbon_paths := [], carbon_coefficient := 0.0 }

/-- Second pathway with the duplicated uuid. -/
def ncsDupB : NcsPathway :=
  { uuid := "dup-1", name := "B", description := ""
    path := "", layer_type := LayerType.UNDEFINED
    user_defined := false, carbon_paths := [], carbon_coefficient := 0.0 }

/-- Model whose pathway list repeats a uuid. -/
def im2 : ImplementationModel :=
  { uuid := "3c", name := "Dup Model", description := ""
    path := "", layer_type := LayerType.UNDEFINED
    user_defined := false, pathways := [ncsDupA, ncsDupB]
    priority_layers := [] }

/-- A pathway whose layer path does not exist, hence invalid. -/
def ncsBad : NcsPathway :=
  { uuid := "9z", name := "Bad", description := ""
    path := "missing.tif", layer_type := LayerType.RASTER
    user_defined := false, carbon_paths := [], carbon_coefficient := 0.0 }

/-- A model with no layer and no pathways. -/
def imEmpty : ImplementationModel :=
  { uuid := "4d", name := "Empty", description := ""
    path := "", layer_type := LayerType.UNDEFINED
    user_defined := false, pathways := [], priority_layers := [] }

/-- A model with no resolvable layer, one pathway and one priority
weighting layer. -/
def imB : ImplementationModel :=
  { uuid := "6f", name := "NoLayer", description := ""
    path := "", layer_type := LayerType.UNDEFINED
    user_defined := false, pathways := [ncs1]
    priority_layers := ["ncs.tif"] }

/-- Pathway constructed with base fields equal to `ncsDiffPath` but a
different path. -/
def ncsSameBaseA : NcsPathway :=
  mkNcsPathway envNone
    { uuid := "5e", name := "Same", description := "same desc"
      path := "a.tif", layer_type := LayerType.UNDEFINED
      user_defined := false, carbon_paths := [], carbon_coefficient := 0.0 }

/-- Pathway with the same uuid, name and description as `ncsSameBaseA`
but path `b.tif`. -/
def ncsSameBaseB : NcsPathway :=
  mkNcsPathway envNone
    { uuid := "5e", name := "Same", description := "same desc"
      path := "b.tif", layer_type := LayerType.UNDEFINED
      user_defined := false, carbon_paths := [], carbon_coefficient := 0.0 }

/-- Environment where only `raster.tif` exists, as a valid raster. -/
def env9 : Env :=
  { pathExists := fun p => p == "raster.tif"
    rasterValid := fun p => p == "raster.tif"
    vectorValid := fun _ => false }

/-- Layer component pointing at the existing valid raster `raster.tif`
with the dataclass default `layer_type = UNDEFINED`. -/
def lmc9 : LayerModelComponent :=
  { uuid := "7g", name := "R", description := ""
    path := "raster.tif", layer_type := LayerType.UNDEFINED
    user_defined := false }

/-- The spec §8 example scenario: name `Pilot Run`, extent bbox
`[-23.96, 32.07, -25.20, 30.74]`. -/
def pilotScenario : ScenarioSettings :=
  { uuid := "8h", name := "Pilot Run", description := "pilot"
    extent := { bbox := [-23.96, 32.07, -25.20, 30.74] }
    models := [], priority_layer_groups := []
    state := ScenarioState.IDLE }

/-- A stored scenario child group as `save_scenario` would have written
it. -/
def pilotGroup : ScenarioGroup :=
  { name := some "Pilot Run", description := some "pilot"
    uuid_val := some "8h", bbox := some [-23.96, 32.07, -25.20, 30.74] }

/-- A store whose blob under `u1` is not JSON. -/
def storeBad : NcsStore := [("u1", Blob.malformed "not json")]

/-- Catalog record with uuid `u1` and a path. -/
def rec1 : NcsDict :=
  { uuid := some "u1", name := some "Agroforestry"
    description := some "d1", path := some "f1.tif", user_defined := none }

/-- Catalog record missing its path field. -/
def rec2 : NcsDict :=
  { uuid := some "u2", name := some "Bamboo"
    description := some "d2", path := none, user_defined := none }

/-- Catalog record with uuid `u3` and a path. -/
def rec3 : NcsDict :=
  { uuid := some "u3", name := some "Wetlands"
    description := some "d3", path := some "f3.tif", user_defined := none }

/-- The three-record catalog of the C8 example: one record lacks its
path. -/
def catalog3 : List NcsDict := [rec1, rec2, rec3]

/-- A store is clean when every stored blob parses as JSON. -/
def storeClean (store : NcsStore) : Prop :=
  ∀ kv ∈ store, Blob.wellFormed kv.2 = true

/-- The store produced by seeding `catalog3` into an empty store: the
two records that carry both uuid and path, with their paths rewritten
against the placeholder base directory and `user_defined` forced to
false. -/
def seededStore3 : NcsStore :=
  [("u3", Blob.json
      { uuid := some "u3", name := some "Wetlands", description := some "d3"
        path := some "/ncs_pathways/f3.tif", user_defined := some false }),
   ("u1", Blob.json
      { uuid := some "u1", name := some "Agroforestry"
        description := some "d1"
        path := some "/ncs_pathways/f1.tif", user_defined := some false })]

/-!  Helper lemmas. -/

/-- `update_layer_type` only ever rewrites `layer_type`: the identity
fields, the path and the user flag are untouched. -/
theorem update_layer_type_base (env : Env) (c : LayerModelComponent) :
    (LayerModelComponent.update_layer_type env c).toBaseModelComponent
      = c.toBaseModelComponent := by
  unfold LayerModelComponent.update_layer_type
  split
  · rfl
  · split
    · rfl
    · split <;> rfl

/-- `update_layer_type` preserves the name. -/
theorem update_layer_type_name (env : Env) (c : LayerModelComponent) :
    (LayerModelComponent.update_layer_type env c).name = c.name := by
  rw [show (LayerModelComponent.update_layer_type env c).name
      = (LayerModelComponent.update_layer_type env c).toBaseModelComponent.name
      from rfl,
    update_layer_type_base]

/-- When `contains_pathway` is false, the uuid filter over the pathway
list is empty. -/
theorem contains_pathway_false_filter (m : ImplementationModel) (u : String)
    (h : ImplementationModel.contains_pathway m u = false) :
    m.pathways.filter (fun q => q.uuid == u) = [] := by
  unfold ImplementationModel.contains_pathway
    ImplementationModel.pathway_by_uuid at h
  revert h
  cases hf : m.pathways.filter (fun q => q.uuid == u) with
  | nil => intro _; rfl
  | cons a t => intro h; simp at h

/-!  Claim theorems. -/

/-- C1: the mutually-exclusive-modes invariant is NOT maintained by every
operation.  Constructing `im1` (its path `model.tif` resolves to a valid
raster layer, no pathways) succeeds and leaves it unchanged, yet
`add_ncs_pathway` then accepts the valid pathway `ncs1` and reports
success, leaving a model whose path still resolves to a valid layer AND
whose pathways list is non-empty — the code never consults the layer
state, although its own docstring promises failure when the layer
property is set. -/
theorem impl_model_exclusion_not_enforced :
    mkImplementationModel env1 im1 = Except.ok im1 ∧
    (ImplementationModel.add_ncs_pathway env1 im1 ncs1).1 = true ∧
    (ImplementationModel.add_ncs_pathway env1 im1 ncs1).2.pathways.length
      = 1 ∧
    (ImplementationModel.to_map_layer env1
        (ImplementationModel.add_ncs_pathway env1 im1 ncs1).2).isSome
      = true ∧
    LayerModelComponent.is_valid env1
        (ImplementationModel.add_ncs_pathway env1 im1 ncs1).2.toLayerModelComponent
      = true :=
  ⟨rfl, rfl, rfl, rfl, rfl⟩

/-- C2: constructing an `ImplementationModel` whose pathway list repeats
a uuid raises `ValueError` — the constructor propagates the error and no
model value is produced. -/
theorem construct_duplicate_pathways_raises (env : Env)
    (m : ImplementationModel)
    (h : ¬ (m.pathways.map (fun p => p.uuid)).Nodup) :
    mkImplementationModel env m =
      Except.error
        ("Duplicate pathways found in implementation model "
          ++ m.name ++ ".") := by
  unfold mkImplementationModel
  rw [if_neg h]
  rw [update_layer_type_name]

/-- Witness for C2 at the concrete model `im2`, whose two pathways share
the uuid `dup-1`. -/
theorem construct_duplicate_pathways_raises_witness :
    mkImplementationModel envNone im2 =
      Except.error
        ("Duplicate pathways found in implementation model "
          ++ im2.name ++ ".") :=
  construct_duplicate_pathways_raises envNone im2 (by decide)

/-- C9: `layer_type` is NOT derived from opening the path.  `lmc9` points
at `raster.tif`, which exists and opens as a valid raster, yet because
`to_map_layer` dispatches on the CURRENT `layer_type` the dataclass
default UNDEFINED makes the probe return None, and construction (which
runs `update_layer_type`) leaves `layer_type` UNDEFINED instead of
setting RASTER. -/
theorem layer_type_not_derived :
    env9.pathExists lmc9.path = true ∧
    env9.rasterValid lmc9.path = true ∧
    lmc9.layer_type = LayerType.UNDEFINED ∧
    mkLayerModelComponent env9 lmc9 = lmc9 ∧
    (mkLayerModelComponent env9 lmc9).layer_type = LayerType.UNDEFINED :=
  ⟨rfl, rfl, rfl, rfl, rfl⟩

/-- C10: the dataclass default for `ScenarioResult.created_date` is
evaluated once at module load, so any two results constructed without an
explicit date — at arbitrary later times `t1`, `t2` — carry the
identical module-load timestamp, not their own construction times. -/
theorem scenario_result_created_date_shared (t0 : Nat) (s1 s2 : Scenario)
    (t1 t2 : Nat) :
    (mkScenarioResult t0 s1 none t1).created_date
      = (mkScenarioResult t0 s2 none t2).created_date ∧
    (mkScenarioResult t0 s1 none t1).created_date
      = scenarioResultDefaultCreatedDate t0 :=
  ⟨rfl, rfl⟩

/-- Counterexample to C6: `ncsSameBaseA` and `ncsSameBaseB` are
constructed with identical uuid, name and description — base equality
holds — yet `NcsPathway.__eq__` compares them unequal because their
paths differ. -/
theorem ncs_eq_counterexample :
    BaseModelComponent.eq ncsSameBaseA.toBaseModelComponent
        ncsSameBaseB.toBaseModelComponent = true ∧
    NcsPathway.eq ncsSameBaseA ncsSameBaseB = false :=
  ⟨rfl, rfl⟩

/-- C6 (amended): equality is structural over exactly
`uuid, name, description` for `BaseModelComponent` and
`LayerModelComponent`; `NcsPathway.__eq__` additionally compares
`path`, `layer_type` and `user_defined`, while still ignoring
`carbon_paths` and `carbon_coefficient` (the right-hand sides of the
characterizations below mention no other field). -/
theorem component_equality_fields (x y : BaseModelComponent)
    (a b : LayerModelComponent) (p q : NcsPathway) :
    (BaseModelComponent.eq x y = true ↔
      x.uuid = y.uuid ∧ x.name = y.name ∧ x.description = y.description) ∧
    (LayerModelComponent.eq a b = true ↔
      a.uuid = b.uuid ∧ a.name = b.name ∧ a.description = b.description) ∧
    (NcsPathway.eq p q = true ↔
      p.uuid = q.uuid ∧ p.name = q.name ∧ p.description = q.description ∧
      p.path = q.path ∧ p.layer_type = q.layer_type ∧
      p.user_defined = q.user_defined) := by
  refine ⟨?_, ?_, ?_⟩
  · unfold BaseModelComponent.eq
    split_ifs with h1 h2 h3 <;> simp_all [bne_iff_ne]
  · unfold LayerModelComponent.eq BaseModelComponent.eq
    split_ifs with h1 h2 h3 <;> simp_all [bne_iff_ne]
  · unfold NcsPathway.eq LayerModelComponent.eq BaseModelComponent.eq
    split_ifs with h1 h2 h3 h4 <;> simp_all [bne_iff_ne]

/-- C5: `add_ncs_pathway` fails (False, model unchanged, no exception)
when the pathway is invalid or its uuid is already present; otherwise it
appends and succeeds; adding the same pathway twice leaves exactly one
entry with that uuid and the second call reports failure. -/
theorem add_ncs_pathway_spec (env : Env) (m : ImplementationModel)
    (p : NcsPathway) :
    (NcsPathway.is_valid env p = false ∨
        ImplementationModel.contains_pathway m p.uuid = true →
      ImplementationModel.add_ncs_pathway env m p = (false, m)) ∧
    (NcsPathway.is_valid env p = true →
      ImplementationModel.contains_pathway m p.uuid = false →
      ImplementationModel.add_ncs_pathway env m p =
        (true, { m with pathways := m.pathways ++ [p] })) ∧
    (NcsPathway.is_valid env p = true →
      ImplementationModel.contains_pathway m p.uuid = false →
      (ImplementationModel.add_ncs_pathway env
          (ImplementationModel.add_ncs_pathway env m p).2 p).1 = false ∧
      ((ImplementationModel.add_ncs_pathway env
          (ImplementationModel.add_ncs_pathway env m p).2 p).2.pathways.filter
            (fun q => q.uuid == p.uuid)).length = 1) := by
  have happend : NcsPathway.is_valid env p = true →
      ImplementationModel.contains_pathway m p.uuid = false →
      ImplementationModel.add_ncs_pathway env m p =
        (true, { m with pathways := m.pathways ++ [p] }) := by
    intro hv hc
    unfold ImplementationModel.add_ncs_pathway
    rw [hv, hc]
    simp
  refine ⟨?_, happend, ?_⟩
  · intro h
    unfold ImplementationModel.add_ncs_pathway
    rcases h with h | h
    · rw [h]; simp
    · rw [h]
      by_cases hv : NcsPathway.is_valid env p = false
      · rw [hv]; simp
      · simp at hv
        rw [hv]; simp
  · intro hv hc
    have hfilter := contains_pathway_false_filter m p.uuid hc
    rw [happend hv hc]
    have hfilter1 :
        (({ m with pathways := m.pathways ++ [p] } :
            ImplementationModel).pathways.filter
          (fun q => q.uuid == p.uuid)) = [p] := by
      show ((m.pathways ++ [p]).filter (fun q => q.uuid == p.uuid)) = [p]
      rw [List.filter_append, hfilter]
      simp
    have hcontains1 : ImplementationModel.contains_pathway
        { m with pathways := m.pathways ++ [p] } p.uuid = true := by
      unfold ImplementationModel.contains_pathway
        ImplementationModel.pathway_by_uuid
      rw [hfilter1]
      rfl
    constructor
    · unfold ImplementationModel.add_ncs_pathway
      rw [hv, hcontains1]
      simp
    · unfold ImplementationModel.add_ncs_pathway
      rw [hv, hcontains1]
      simp only [Bool.true_eq_false, if_false, if_true, reduceIte]
      rw [hfilter1]
      rfl

/-- Witness for C5: the invalid pathway `ncsBad` is rejected with the
model unchanged; the valid fresh pathway `ncs1` is appended with success;
re-adding `ncs1` fails and exactly one entry with its uuid remains. -/
theorem add_ncs_pathway_spec_witness :
    ImplementationModel.add_ncs_pathway env1 imEmpty ncsBad
      = (false, imEmpty) ∧
    ImplementationModel.add_ncs_pathway env1 imEmpty ncs1 =
      (true, { imEmpty with pathways := imEmpty.pathways ++ [ncs1] }) ∧
    (ImplementationModel.add_ncs_pathway env1
        (ImplementationModel.add_ncs_pathway env1 imEmpty ncs1).2 ncs1).1
      = false ∧
    ((ImplementationModel.add_ncs_pathway env1
        (ImplementationModel.add_ncs_pathway env1 imEmpty ncs1).2
          ncs1).2.pathways.filter
          (fun q => q.uuid == ncs1.uuid)).length = 1 :=
  ⟨(add_ncs_pathway_spec env1 imEmpty ncsBad).1 (Or.inl (by decide)),
   (add_ncs_pathway_spec env1 imEmpty ncs1).2.1 (by decide) (by decide),
   ((add_ncs_pathway_spec env1 imEmpty ncs1).2.2 (by decide) (by decide)).1,
   ((add_ncs_pathway_spec env1 imEmpty ncs1).2.2 (by decide) (by decide)).2⟩

/-- C7: `is_valid` on an implementation model defers to the inherited
layer validity check whenever `to_map_layer()` yields a layer (pathways
ignored); otherwise it is true exactly when the pathways list is
non-empty and every priority weighting layer is valid. -/
theorem impl_is_valid_spec (env : Env) (m : ImplementationModel) :
    ((ImplementationModel.to_map_layer env m).isSome = true →
      ImplementationModel.is_valid env m =
        LayerModelComponent.is_valid env m.toLayerModelComponent) ∧
    (ImplementationModel.to_map_layer env m = none →
      (ImplementationModel.is_valid env m = true ↔
        m.pathways ≠ [] ∧ ImplementationModel.is_pwls_valid env m = true)) := by
  constructor
  · intro h
    unfold ImplementationModel.is_valid
    cases hl : ImplementationModel.to_map_layer env m with
    | none => rw [hl] at h; simp at h
    | some l => rfl
  · intro hl
    unfold ImplementationModel.is_valid
    rw [hl]
    by_cases h0 : m.pathways.length = 0
    · have he : m.pathways = [] := List.length_eq_zero.mp h0
      simp [h0, he]
    · have hne : m.pathways ≠ [] := by
        intro he
        exact h0 (by rw [he]; rfl)
      cases hq : ImplementationModel.is_pwls_valid env m with
      | false => simp [h0, hq, hne]
      | true => simp [h0, hq, hne]

/-- Witness for C7: `im1` has a resolvable layer and defers to the layer
check; `imB` has none and is valid exactly when it has a pathway and its
priority weighting layers are valid. -/
theorem impl_is_valid_spec_witness :
    ImplementationModel.is_valid env1 im1 =
      LayerModelComponent.is_valid env1 im1.toLayerModelComponent ∧
    (ImplementationModel.is_valid env1 imB = true ↔
      imB.pathways ≠ [] ∧ ImplementationModel.is_pwls_valid env1 imB = true) :=
  ⟨(impl_is_valid_spec env1 im1).1 (by decide),
   (impl_is_valid_spec env1 imB).2 (by decide)⟩

/-- C3: the scenario round trip is broken at both ends.  `save_scenario`
raises `AttributeError` for EVERY scenario because `save_scenario_extent`
reads `extent.spatial.bbox` on a `SpatialExtent` whose only field is
`bbox` — in particular for the Pilot Run example — and the surviving
`get_scenario` overload raises `TypeError` on any store holding a
scenario group, because `from_qgs_settings` constructs the settings
record without the required `extent`, `models` and
`priority_layer_groups` fields (and would then read the nonexistent
attribute `scenario.id`). -/
theorem scenario_round_trip_broken :
    (∀ (store : ScenarioStore) (s : ScenarioSettings),
      SettingsManager.save_scenario store s =
        Except.error
          "AttributeError: SpatialExtent object has no attribute spatial") ∧
    SettingsManager.save_scenario [] pilotScenario =
      Except.error
        "AttributeError: SpatialExtent object has no attribute spatial" ∧
    SettingsManager.get_scenario [("8h", pilotGroup)] "8h" =
      Except.error
        "TypeError: ScenarioSettings missing required fields extent, models, priority_layer_groups" :=
  ⟨fun _ _ => rfl, rfl, rfl⟩

/-- Counterexample to C4: the blob stored under `u1` is not JSON, and
`get_ncs_pathway` propagates the `JSONDecodeError` to the caller instead
of returning the absent result. -/
theorem get_ncs_pathway_malformed_raises :
    SettingsManager.get_ncs_pathway envNone storeBad "u1" =
      Except.error (PyErr.jsonDecodeError "not json") ∧
    SettingsManager.get_ncs_pathway envNone storeBad "u1" ≠
      Except.ok none := by
  constructor
  · rfl
  · intro h
    rw [show SettingsManager.get_ncs_pathway envNone storeBad "u1" =
        Except.error (PyErr.jsonDecodeError "not json") from rfl] at h
    exact Except.noConfusion h

/-- C4 (amended): `get_ncs_pathway` returns the absent result when no
value is stored under the key, but a stored blob that fails to parse as
JSON raises the parse error to the caller — it is not downgraded to
not-found. -/
theorem get_ncs_pathway_absent_or_malformed (env : Env) (store : NcsStore)
    (u : String) :
    (storeValue store u = none →
      SettingsManager.get_ncs_pathway env store u = Except.ok none) ∧
    (∀ raw, storeValue store u = some (Blob.malformed raw) →
      SettingsManager.get_ncs_pathway env store u =
        Except.error (PyErr.jsonDecodeError raw)) := by
  constructor
  · intro h
    unfold SettingsManager.get_ncs_pathway
    rw [h]
  · intro raw h
    unfold SettingsManager.get_ncs_pathway
    rw [h]
    rfl

/-- Witness for C4 (amended), applied at an empty store and at the store
holding a malformed blob. -/
theorem get_ncs_pathway_absent_or_malformed_witness :
    SettingsManager.get_ncs_pathway envNone [] "u1" = Except.ok none ∧
    SettingsManager.get_ncs_pathway envNone storeBad "u1" =
      Except.error (PyErr.jsonDecodeError "not json") :=
  ⟨(get_ncs_pathway_absent_or_malformed envNone [] "u1").1 rfl,
   (get_ncs_pathway_absent_or_malformed envNone storeBad "u1").2
     "not json" rfl⟩

/-- Unfolding equation of `storeValue` on a non-empty store. -/
theorem storeValue_cons (kv : String × Blob) (rest : NcsStore)
    (k : String) :
    storeValue (kv :: rest) k
      = if kv.1 = k then some kv.2 else storeValue rest k := rfl

/-- Reading a key other than the one just filtered out is unchanged. -/
theorem storeValue_filter_ne (store : NcsStore) (k k2 : String)
    (h : k2 ≠ k) :
    storeValue (store.filter fun kv => !(kv.1 == k)) k2
      = storeValue store k2 := by
  induction store with
  | nil => rfl
  | cons kv rest ih =>
    by_cases h1 : kv.1 = k
    · rw [List.filter_cons_of_neg (by simp [h1])]
      rw [ih, storeValue_cons,
        if_neg (by rw [h1]; exact fun he => h he.symm)]
    · rw [List.filter_cons_of_pos (by simp [h1])]
      rw [storeValue_cons, storeValue_cons, ih]

/-- A key present before a `storeSet` is present after it. -/
theorem storeValue_storeSet_isSome (store : NcsStore) (k k2 : String)
    (v : Blob) (h : (storeValue store k2).isSome = true) :
    (storeValue (storeSet store k v) k2).isSome = true := by
  unfold storeSet
  rw [storeValue_cons]
  by_cases hk : k = k2
  · rw [if_pos hk]
    rfl
  · rw [if_neg hk]
    rw [storeValue_filter_ne store k k2 (fun he => hk he.symm)]
    exact h

/-- The key written by a `storeSet` is present afterwards. -/
theorem storeValue_storeSet_self (store : NcsStore) (k : String)
    (v : Blob) :
    (storeValue (storeSet store k v) k).isSome = true := by
  unfold storeSet
  rw [storeValue_cons, if_pos rfl]
  rfl

/-- In a clean store every successful lookup yields a well-formed
blob. -/
theorem storeClean_lookup (store : NcsStore) (u : String) (b : Blob)
    (hclean : storeClean store) (h : storeValue store u = some b) :
    Blob.wellFormed b = true := by
  induction store with
  | nil => exact Option.noConfusion h
  | cons kv rest ih =>
    rw [storeValue_cons] at h
    by_cases h1 : kv.1 = u
    · rw [if_pos h1] at h
      cases h
      exact hclean kv (List.mem_cons_self kv rest)
    · rw [if_neg h1] at h
      exact ih (fun kv2 hm => hclean kv2 (List.mem_cons_of_mem kv hm)) h

/-- Writing a JSON blob keeps the store clean. -/
theorem storeClean_storeSet (store : NcsStore) (k : String) (d : NcsDict)
    (hclean : storeClean store) :
    storeClean (storeSet store k (Blob.json d)) := by
  intro kv hm
  unfold storeSet at hm
  rcases List.mem_cons.mp hm with h | h
  · subst h
    rfl
  · exact hclean kv (List.mem_of_mem_filter h)

/-- On a clean store `get_ncs_pathway` never raises. -/
theorem get_ncs_pathway_clean_ok (env : Env) (store : NcsStore)
    (u : String) (hclean : storeClean store) :
    ∃ o, SettingsManager.get_ncs_pathway env store u = Except.ok o := by
  unfold SettingsManager.get_ncs_pathway
  cases hv : storeValue store u with
  | none => exact ⟨none, rfl⟩
  | some b =>
    cases b with
    | json dd => exact ⟨create_ncs_pathway env dd, rfl⟩
    | malformed raw =>
      have hw := storeClean_lookup store u (Blob.malformed raw) hclean hv
      simp [Blob.wellFormed] at hw

/-- One seeding step on a clean store: either an ok result that is still
clean, keeps every present key present and makes the key of a record
carrying uuid and path present; or a KeyError caused by a missing uuid
or path. -/
theorem seed_record_clean_cases (env : Env) (store : NcsStore)
    (d : NcsDict) (hclean : storeClean store) :
    (∃ s1, seed_record env store d = Except.ok s1 ∧ storeClean s1 ∧
      (∀ k, (storeValue store k).isSome = true →
        (storeValue s1 k).isSome = true) ∧
      (∀ u, d.uuid = some u → d.path.isSome = true →
        (storeValue s1 u).isSome = true)) ∨
    ((∃ k, seed_record env store d = Except.error (PyErr.keyError k)) ∧
      (d.uuid = none ∨ d.path = none)) := by
  cases hu : d.uuid with
  | none =>
    refine Or.inr ⟨⟨"uuid", ?_⟩, Or.inl rfl⟩
    unfold seed_record
    simp only [hu]
  | some u =>
    obtain ⟨o, hget⟩ := get_ncs_pathway_clean_ok env store u hclean
    cases o with
    | some pw =>
      have hpresent : (storeValue store u).isSome = true := by
        cases hv : storeValue store u with
        | some b => rfl
        | none =>
          have h0 : SettingsManager.get_ncs_pathway env store u
              = Except.ok none := by
            unfold SettingsManager.get_ncs_pathway
            rw [hv]
          rw [h0] at hget
          simp at hget
      refine Or.inl ⟨store, ?_, hclean, fun k hk => hk, ?_⟩
      · unfold seed_record
        simp only [hu, hget]
      · intro u2 hu2 _
        obtain rfl := Option.some.inj hu2
        exact hpresent
    | none =>
      cases hp : d.path with
      | none =>
        refine Or.inr ⟨⟨"path", ?_⟩, Or.inr rfl⟩
        unfold seed_record
        simp only [hu, hget, hp]
      | some file_name =>
        refine Or.inl ⟨storeSet store u (Blob.json
            { d with
              path := some ("" ++ "/" ++ "ncs_pathways" ++ "/" ++ file_name)
              user_defined := some false }),
          ?_, storeClean_storeSet store u _ hclean,
          fun k hk => storeValue_storeSet_isSome store u k _ hk, ?_⟩
        · unfold seed_record
          simp only [hu, hget, hp]
          unfold SettingsManager.save_ncs_pathway_dict
          rfl
        · intro u2 hu2 _
          obtain rfl := Option.some.inj hu2
          exact storeValue_storeSet_self store u _

/-- C8 (amended): over any catalog and any store whose stored blobs are
all well-formed JSON, seeding completes without raising — records
missing their uuid or path raise `KeyError`, are logged and skipped —
existing keys are never removed, and every record carrying both a uuid
and a path ends with its id persisted in the store. -/
theorem seed_defaults_spec (env : Env) (catalog : List NcsDict) :
    ∀ store : NcsStore, storeClean store →
    ∃ s2, init_default_settings env catalog store = Except.ok s2 ∧
      (∀ k, (storeValue store k).isSome = true →
        (storeValue s2 k).isSome = true) ∧
      (∀ d ∈ catalog, ∀ u, d.uuid = some u → d.path.isSome = true →
        (storeValue s2 u).isSome = true) := by
  induction catalog with
  | nil =>
    intro store hclean
    exact ⟨store, rfl, fun k hk => hk, by simp⟩
  | cons d rest ih =>
    intro store hclean
    rcases seed_record_clean_cases env store d hclean with
      ⟨s1, hs1, hc1, hm1, hp1⟩ | ⟨⟨k, hk⟩, hmiss⟩
    · rcases ih s1 hc1 with ⟨s2, hs2, hm2, hp2⟩
      refine ⟨s2, ?_, fun k hk => hm2 k (hm1 k hk), ?_⟩
      · unfold init_default_settings
        rw [hs1]
        exact hs2
      · intro dd hdd u hu hp
        rcases List.mem_cons.mp hdd with he | he
        · subst he
          exact hm2 u (hp1 u hu hp)
        · exact hp2 dd he u hu hp
    · rcases ih store hclean with ⟨s2, hs2, hm2, hp2⟩
      refine ⟨s2, ?_, hm2, ?_⟩
      · unfold init_default_settings
        rw [hk]
        exact hs2
      · intro dd hdd u hu hp
        rcases List.mem_cons.mp hdd with he | he
        · subst he
          rcases hmiss with hm | hm
        
          · rw [hm] at hu
            exact Option.noConfusion hu
          · rw [hm] at hp
            exact Bool.noConfusion hp
        · exact hp2 dd he u hu hp

/-- Counterexample to C8: with the blob stored under `u1` malformed, the
bootstrap run over a catalog holding the well-formed record `rec1` DOES
raise — `get_ncs_pathway` throws `JSONDecodeError`, which the
KeyError-only handler does not catch, aborting the whole batch. -/
theorem seed_malformed_blob_raises :
    init_default_settings envNone [rec1] storeBad =
      Except.error (PyErr.jsonDecodeError "not json") := rfl

/-- Witness for C8 (amended) at the three-record catalog of the claim:
seeding into an empty (vacuously clean) store completes, and exactly the
two records carrying both uuid and path are persisted — the final store
is `seededStore3`, of size 2. -/
theorem seed_defaults_spec_witness :
    (∃ s2, init_default_settings envNone catalog3 [] = Except.ok s2 ∧
      (∀ k, (storeValue [] k).isSome = true →
        (storeValue s2 k).isSome = true) ∧
      (∀ d ∈ catalog3, ∀ u, d.uuid = some u → d.path.isSome = true →
        (storeValue s2 u).isSome = true)) ∧
    init_default_settings envNone catalog3 [] = Except.ok seededStore3 ∧
    seededStore3.length = 2 :=
  ⟨seed_defaults_spec envNone catalog3 []
      (by intro kv hm; exact absurd hm (List.not_mem_nil kv)),
    rfl, rfl⟩
